/-
Verification of the conversation-session orchestrator backend.

Shallow embedding of the Python sources under `backend/`:
  * `backend/models/schemas.py`   — data model (EmotionType, LLMResponse, EmotionMapping)
  * `backend/services/emotion_mapper.py` — emotion → voice-parameter mapper
  * `backend/services/llm_service.py`    — reply-generation adapter (history + parsing)
  * `backend/services/tts_service.py`    — synthesis streaming with HTTP fallback
  * `backend/main.py`             — transcript accumulator and pipeline orchestrator

Modelling conventions:
  * Python floats are modelled as exact rationals (ℚ); every numeric constant in
    the source is an exact decimal, and every claim proved here is about interval
    or set membership that is insensitive to binary-float rounding.
  * External capabilities (the Anthropic client, the ElevenLabs transports, the
    Deepgram stream, `json.loads` from the standard library) are abstracted as
    parameters: an LLM call outcome, transport run outcomes, a decode function.
  * Fallible Python code is modelled with `Option`/`Except` values that keep
    caught and uncaught exceptions apart: a failure the source's local `except`
    clause catches is an `Option`/sum-branch consumed on the spot, while an
    exception that escapes a function (the parser's `AttributeError`/`TypeError`)
    is an `Except.error` handled by the caller's generic `except Exception`.
  * Async generators are modelled by the finite list of chunks they yield, plus a
    flag recording whether they terminated by raising.  Task cancellation
    (`asyncio.CancelledError`) is outside the model.
-/
import Mathlib

namespace AiHuman

/-! ### Python string primitives

Models of the Python `str` methods the sources use, written by structural
recursion over the character list so that they evaluate by kernel reduction.
(The standard-library `String.trim` / `String.startsWith` are implemented on
`Substring` by well-founded recursion and do not reduce.) -/

/-- Python `str.strip()` with no argument: remove leading and trailing
whitespace. -/
def pyStrip (s : String) : String :=
  ⟨(((s.data.dropWhile Char.isWhitespace).reverse.dropWhile Char.isWhitespace).reverse)⟩

/-- Prefix test on character lists (structural model of `str.startswith`). -/
def listIsPrefix : List Char → List Char → Bool
  | [], _ => true
  | _ :: _, [] => false
  | a :: as, b :: bs => a = b && listIsPrefix as bs

/-- Python `s.startswith(p)`. -/
def pyStartsWith (s p : String) : Bool :=
  listIsPrefix p.data s.data

/-- Python `s.split(sep)` for a one-character separator: split on every
occurrence, keeping empty pieces. -/
def splitChar (c : Char) : List Char → List (List Char)
  | [] => [[]]
  | a :: as =>
    match splitChar c as with
    | [] => [[a]]
    | g :: gs => if a = c then [] :: g :: gs else (a :: g) :: gs

/-- Python `sep.join(pieces)` for a one-character separator. -/
def joinChar (c : Char) : List (List Char) → List Char
  | [] => []
  | [g] => g
  | g :: gs => g ++ c :: joinChar c gs

/-! ### `backend/models/schemas.py` -/

/-- The eight-member emotion enumeration (`EmotionType` in `schemas.py`). -/
inductive EmotionType where
  | neutral | happy | sad | angry | surprised | thinking | anxious | empathetic
  deriving DecidableEq, Repr

/-- `EmotionType.value` in Python: the string value of each enum member. -/
def EmotionType.value : EmotionType → String
  | .neutral => "neutral"
  | .happy => "happy"
  | .sad => "sad"
  | .angry => "angry"
  | .surprised => "surprised"
  | .thinking => "thinking"
  | .anxious => "anxious"
  | .empathetic => "empathetic"

/-- Inverse of `EmotionType.value`: the Python constructor `EmotionType(s)`,
which raises `ValueError` on an unrecognized string — here `none`. -/
def emotionTypeOfString : String → Option EmotionType
  | "neutral" => some .neutral
  | "happy" => some .happy
  | "sad" => some .sad
  | "angry" => some .angry
  | "surprised" => some .surprised
  | "thinking" => some .thinking
  | "anxious" => some .anxious
  | "empathetic" => some .empathetic
  | _ => none

/-- `LLMResponse` in `schemas.py`.  The pydantic model declares
`intensity: float = Field(default=0.5, ge=0.0, le=1.0)`: construction with an
out-of-range intensity raises a `ValidationError` (a `ValueError`), it does not
clamp.  A constructed value therefore always satisfies the bounds. -/
structure LLMResponse where
  text : String
  emotion : EmotionType
  intensity : ℚ
  voice_direction : String
  deriving DecidableEq, Repr

/-- `EmotionMapping` in `schemas.py`. -/
structure EmotionMapping where
  simli_emotion_id : String
  elevenlabs_audio_tag : String
  voice_stability : ℚ
  voice_style : ℚ
  voice_speed : ℚ
  deriving DecidableEq, Repr

/-! ### `backend/services/emotion_mapper.py` -/

/-- The static `EMOTION_MAP` table, one entry per enumeration member. -/
def EMOTION_MAP : EmotionType → EmotionMapping
  | .neutral => ⟨"neutral", "", 0.5, 0.0, 0.9⟩
  | .happy => ⟨"happy", "[cheerfully]", 0.4, 0.6, 0.95⟩
  | .sad => ⟨"sad", "[sorrowful]", 0.3, 0.5, 0.78⟩
  | .angry => ⟨"angry", "[frustrated]", 0.35, 0.7, 0.95⟩
  | .surprised => ⟨"surprised", "[gasps]", 0.3, 0.6, 0.95⟩
  | .thinking => ⟨"thinking", "[pauses]", 0.6, 0.2, 0.82⟩
  | .anxious => ⟨"anxious", "[nervously]", 0.3, 0.5, 0.92⟩
  | .empathetic => ⟨"empathetic", "[calm]", 0.4, 0.4, 0.85⟩

/-- `EMOTION_MAP.get(emotion, EMOTION_MAP[EmotionType.NEUTRAL])`: a lookup key
that is not a member of the table (`none` here) falls back to the neutral entry. -/
def emotionMapGet : Option EmotionType → EmotionMapping
  | some e => EMOTION_MAP e
  | none => EMOTION_MAP .neutral

/-- `round_to_valid_stability` in `emotion_mapper.py`. -/
def round_to_valid_stability (value : ℚ) : ℚ :=
  if value < 0.25 then 0.0
  else if value < 0.75 then 0.5
  else 1.0

/-- Python's `round(x, 2)` (banker's rounding to two decimal places), modelled
exactly on ℚ: round half to even. -/
def pyRound2 (q : ℚ) : ℚ :=
  let x : ℚ := q * 100
  let f : ℤ := ⌊x⌋
  let n : ℤ :=
    if x - f < 1/2 then f
    else if x - f > 1/2 then f + 1
    else if f % 2 = 0 then f else f + 1
  (n : ℚ) / 100

/-- `get_emotion_mapping(emotion, intensity)` in `emotion_mapper.py`.
The `Option` argument models the dictionary lookup with a default: `none`
stands for an unrecognized key, which uses the neutral table entry. -/
def get_emotion_mapping (emotion : Option EmotionType) (intensity : ℚ) : EmotionMapping :=
  let mapping := emotionMapGet emotion
  let raw_stability := mapping.voice_stability - intensity * 0.2
  let adjusted_stability := round_to_valid_stability raw_stability
  let adjusted_style := min 1.0 (mapping.voice_style + intensity * 0.2)
  let base_speed := mapping.voice_speed
  let speed_deviation := base_speed - 1.0
  let adjusted_speed := 1.0 + speed_deviation * (0.5 + intensity * 0.5)
  let adjusted_speed := max 0.7 (min 1.2 (pyRound2 adjusted_speed))
  { simli_emotion_id := mapping.simli_emotion_id
    elevenlabs_audio_tag := mapping.elevenlabs_audio_tag
    voice_stability := adjusted_stability
    voice_style := adjusted_style
    voice_speed := adjusted_speed }

/-! ### `backend/services/llm_service.py` — reply-generation adapter -/

/-- A JSON field value as far as the adapter's field extraction inspects it:
string and number leaves and JSON `null` (Python's `float()` on numeric
strings is not modelled — no claim exercises it). -/
inductive JVal where
  | jstr (s : String)
  | jnum (q : ℚ)
  | jnull
  deriving DecidableEq, Repr

/-- A decoded top-level JSON object: an association list of fields. -/
abbrev JsonRecord := List (String × JVal)

/-- The top level of a successful `json.loads`: either an object, on which
`data.get(...)` works, or any non-object value (list, string, number, bool,
null), on which `data.get` raises `AttributeError` — an exception
`_parse_response`'s `except (json.JSONDecodeError, ValueError)` does NOT
catch.  A decode function `String → Option JsonTop` stands for `json.loads`;
`none` is the `json.JSONDecodeError` branch. -/
inductive JsonTop where
  | jobj (rec : JsonRecord)
  | nonObject
  deriving DecidableEq, Repr

/-- An exception that escapes `_parse_response`: `AttributeError` from
`data.get` on a non-object, or `TypeError` from `float(None)`.  Both land in
`generate_response`'s generic `except Exception`. -/
inductive UncaughtError where
  | attributeError
  | typeError
  deriving DecidableEq, Repr

/-- `data.get(key)`: first binding of `key`, if any. -/
def getField (rec : JsonRecord) (key : String) : Option JVal :=
  (rec.find? (fun p => p.1 = key)).map (fun p => p.2)

/-- `data.get("text", "")` followed by pydantic's `str` validation: a present
non-string raises `ValidationError` (→ `none`). -/
def textField (rec : JsonRecord) : Option String :=
  match (getField rec "text").getD (.jstr "") with
  | .jstr s => some s
  | _ => none

/-- `EmotionType(data.get("emotion", "neutral"))`: an unrecognized or
non-string value raises `ValueError` (→ `none`). -/
def emotionField (rec : JsonRecord) : Option EmotionType :=
  match (getField rec "emotion").getD (.jstr "neutral") with
  | .jstr s => emotionTypeOfString s
  | _ => none

/-- Result of `float(data.get("intensity", 0.5))` followed by pydantic's
`ge=0.0, le=1.0` validation.  `.ok q` on success; `.valueError` for the
failures the `except` clause catches (`float` of a non-numeric string raises
`ValueError`; an out-of-range number raises `ValidationError`, a `ValueError`
— the value is NOT clamped); `.typeError` for `float(None)`, which raises
`TypeError` — an exception the `except` clause does NOT catch. -/
inductive IntensityResult where
  | ok (q : ℚ)
  | valueError
  | typeError
  deriving DecidableEq, Repr

def intensityField (rec : JsonRecord) : IntensityResult :=
  match (getField rec "intensity").getD (.jnum 0.5) with
  | .jnum q => if 0 ≤ q ∧ q ≤ 1 then .ok q else .valueError
  | .jstr _ => .valueError
  | .jnull => .typeError

/-- `data.get("voice_direction", "")` with pydantic `str` validation. -/
def directionField (rec : JsonRecord) : Option String :=
  match (getField rec "voice_direction").getD (.jstr "") with
  | .jstr s => some s
  | _ => none

/-- Result of constructing `LLMResponse(...)` from a decoded object:
`.ok` an envelope, `.valueError` for a failure caught by
`except (json.JSONDecodeError, ValueError)`, or `.typeError` for the
uncaught `float(None)`. -/
inductive DecodeResult where
  | ok (resp : LLMResponse)
  | valueError
  | typeError
  deriving DecidableEq, Repr

/-- Constructing `LLMResponse(...)` from a decoded object.  Python evaluates
the constructor arguments left to right — `data.get("text", "")` (never
raises on an object), `EmotionType(...)` (raises `ValueError` on an
unrecognized value), `float(...)` (raises `TypeError` on `None`, `ValueError`
on a bad string), `data.get("voice_direction", "")` (never raises) — and only
then pydantic validates all fields (`ValidationError` is a `ValueError`).
Hence an emotion `ValueError` takes precedence over an intensity `TypeError`,
and an intensity `TypeError` takes precedence over the constructor-time
validation failures of the other fields. -/
def decodeEnvelope (rec : JsonRecord) : DecodeResult :=
  match emotionField rec with
  | none => .valueError
  | some e =>
    match intensityField rec with
    | .typeError => .typeError
    | .valueError => .valueError
    | .ok q =>
      match textField rec, directionField rec with
      | some t, some v => .ok ⟨t, e, q, v⟩
      | _, _ => .valueError

/-- The code-fence stripping step of `_parse_response`: if the (stripped) text
starts with three backticks, drop the first and last lines when there are more
than two lines. -/
def stripCodeFence (t : String) : String :=
  if pyStartsWith t "```" then
    let lines := splitChar '\n' t.data
    if lines.length > 2 then ⟨joinChar '\n' ((lines.drop 1).dropLast)⟩
    else t
  else t

/-- The fallback envelope of `_parse_response`: the entire raw text as the
reply, emotion neutral, intensity 0.5, no delivery hint. -/
def fallbackEnvelope (raw_text : String) : LLMResponse :=
  ⟨raw_text, .neutral, 0.5, ""⟩

/-- `ClaudeLLMService._parse_response(raw_text)`, parameterized by the
standard-library decode `loads`.  A decode failure or a `ValueError`-class
field failure lands in the `except (json.JSONDecodeError, ValueError)`
branch, which returns the fallback envelope; a non-object top level
(`AttributeError` from `data.get`) or a null intensity (`TypeError` from
`float(None)`) escapes this function — modelled as `.error`. -/
def parse_response (loads : String → Option JsonTop) (raw_text : String) :
    Except UncaughtError LLMResponse :=
  match loads (stripCodeFence (pyStrip raw_text)) with
  | none => .ok (fallbackEnvelope raw_text)
  | some .nonObject => .error .attributeError
  | some (.jobj rec) =>
    match decodeEnvelope rec with
    | .ok resp => .ok resp
    | .valueError => .ok (fallbackEnvelope raw_text)
    | .typeError => .error .typeError

/-- `ClaudeLLMService._is_api_key_valid`:
`bool(key) and not key.startswith("your_") and len(key) > 10`. -/
def llm_is_api_key_valid (key : String) : Bool :=
  !key.data.isEmpty && !pyStartsWith key "your_" && decide (key.data.length > 10)

/-- One entry of `conversation_history`: `{"role": ..., "content": ...}`. -/
inductive Role where
  | user | assistant
  deriving DecidableEq, Repr

structure Msg where
  role : Role
  content : String
  deriving DecidableEq, Repr

/-- `max_history_length = 20`. -/
def max_history_length : ℕ := 20

/-- The history-management step of `generate_response`: append the user
message, then `history = history[-20:]` when the length exceeds 20.  This is
exactly the message list handed to the reply-generation capability. -/
def passedContext (history : List Msg) (user_text : String) : List Msg :=
  if (history ++ [(⟨.user, user_text⟩ : Msg)]).length > max_history_length then
    (history ++ [(⟨.user, user_text⟩ : Msg)]).drop
      ((history ++ [(⟨.user, user_text⟩ : Msg)]).length - max_history_length)
  else history ++ [(⟨.user, user_text⟩ : Msg)]

/-- Outcome of the abstract reply-generation capability call
(`self.client.messages.stream(...)` accumulation): the final concatenated
text, an `anthropic.APIError`, or any other exception. -/
inductive CompleteResult where
  | ok (raw : String)
  | apiError
  | otherError
  deriving DecidableEq, Repr

/-- The mock placeholder envelope returned when the credential is absent or a
placeholder. -/
def mockResponse (user_text : String) : LLMResponse :=
  ⟨"(Mock) 당신이 \"" ++ user_text ++ "\"라고 말씀하셨군요. 실제 API 키를 .env 파일에 설정하면 Claude가 응답합니다.",
   .happy, 0.6, "밝게"⟩

/-- The fixed apology envelope returned on `anthropic.APIError`. -/
def apiErrorResponse : LLMResponse :=
  ⟨"죄송합니다. 잠시 문제가 발생했어요. 다시 말씀해주시겠어요?", .neutral, 0.3, "차분하게"⟩

/-- The envelope returned from the generic `except Exception` branch. -/
def genericErrorResponse : LLMResponse :=
  ⟨"잠시 후 다시 시도해주세요.", .neutral, 0.3, "차분하게"⟩

/-- `ClaudeLLMService.generate_response(user_text)`, returning the envelope
together with the updated `conversation_history`.  Control flow of the source:
an invalid API key returns the mock envelope before touching the history;
otherwise the user turn is appended and the history truncated to the most
recent 20 entries before the capability call; on a successful parse the
parsed reply text (not the raw payload) is appended as the assistant turn; on
`anthropic.APIError` the fixed apology envelope is returned; any other
exception — including the `AttributeError`/`TypeError` that escape
`_parse_response` — hits the generic `except Exception` branch and returns
the retry envelope; neither error path appends an assistant turn.  The
function is total: every exception branch of the source is a value. -/
def generate_response (key : String) (loads : String → Option JsonTop)
    (outcome : CompleteResult) (history : List Msg) (user_text : String) :
    LLMResponse × List Msg :=
  if !llm_is_api_key_valid key then
    (mockResponse user_text, history)
  else
    match outcome with
    | .ok raw =>
      match parse_response loads (pyStrip raw) with
      | .ok resp => (resp, passedContext history user_text ++ [⟨.assistant, resp.text⟩])
      | .error _ => (genericErrorResponse, passedContext history user_text)
    | .apiError => (apiErrorResponse, passedContext history user_text)
    | .otherError => (genericErrorResponse, passedContext history user_text)

/-! ### `backend/services/tts_service.py` — synthesis streaming with fallback -/

/-- `ElevenLabsTTSService._is_api_key_valid` (same check as the LLM adapter's). -/
def tts_is_api_key_valid (key : String) : Bool :=
  !key.data.isEmpty && !pyStartsWith key "your_" && decide (key.data.length > 10)

/-- One run of an abstract synthesis transport (`_synthesize_ws` or
`_synthesize_http`): the chunks it yielded, in order, and whether it
terminated by raising an exception (after those chunks) rather than normally.
Chunks are opaque byte strings. -/
structure TransportRun where
  chunks : List String
  failed : Bool
  deriving DecidableEq, Repr

/-- `ElevenLabsTTSService.synthesize_speech_streaming`: with an unusable API
key or empty voice id the generator returns immediately with no chunks.
Otherwise the WebSocket transport's chunks are forwarded as they arrive; if
and only if that transport raises — whether or not it already yielded chunks —
the HTTP transport is run and its chunks forwarded too.  `_synthesize_http`
catches its own errors internally, so the generator itself never raises. -/
def synthesize_speech_streaming (key voice_id : String)
    (primary secondary : TransportRun) : List String :=
  if !tts_is_api_key_valid key then []
  else if voice_id = "" then []
  else primary.chunks ++ (if primary.failed then secondary.chunks else [])

/-- The condition under which the HTTP fallback block of
`synthesize_speech_streaming` is reached: the guards passed and the WebSocket
transport raised. -/
def secondaryTried (key voice_id : String) (primary : TransportRun) : Bool :=
  tts_is_api_key_valid key && voice_id ≠ "" && primary.failed

/-! ### `backend/main.py` — transcript accumulator (`run_stt_listener`) -/

/-- A transcript event as consumed from the recognition capability's queue:
`{"type": "transcript", "text": t, "is_final": f}` or
`{"type": "utterance_end"}`. -/
inductive SttEvent where
  | transcript (text : String) (isFinal : Bool)
  | utteranceEnd
  deriving DecidableEq, Repr

/-- One iteration of the `run_stt_listener` loop over the accumulator state:
the pending buffer (`accumulated_text`) and the utterances handed to
`_process_conversation` so far.  A final transcript with non-empty stripped
text appends `" " + text.strip()`; an utterance end with a non-empty stripped
buffer hands the stripped buffer to the pipeline and clears the buffer, and
otherwise does nothing.  (Forwarding of transcript events to the front end
carries no accumulator state and is omitted.) -/
def accumStep (st : String × List String) (e : SttEvent) : String × List String :=
  match e with
  | .transcript text isFinal =>
    if isFinal && pyStrip text ≠ "" then (st.1 ++ " " ++ pyStrip text, st.2) else st
  | .utteranceEnd =>
    if pyStrip st.1 ≠ "" then ("", st.2 ++ [pyStrip st.1]) else st

/-- `run_stt_listener` over a finite prefix of the event stream, starting from
an empty buffer: the final buffer and the utterances handed to the pipeline. -/
def run_stt_listener (events : List SttEvent) : String × List String :=
  events.foldl accumStep ("", [])

/-! ### `backend/main.py` — pipeline orchestrator (`_run_pipeline`) -/

/-- A `ServerMessage` sent toward the transport, restricted to the fields each
message type carries.  `send_message` swallows delivery errors, so "emitted"
means the send was issued. -/
inductive Event where
  | status (text : String)
  | transcript (text : String) (isFinal : Bool)
  | emotion (id : String) (intensity : ℚ)
  | response (text : String) (emotion : String)
  | audioChunk (data : String)
  | audioFinal
  | error (text : String)
  deriving DecidableEq, Repr

/-- `ConversationSession._run_pipeline(user_text)`: the ordered list of events
emitted toward the transport, together with the updated conversation history.
Steps of the source, in order: best-effort persist of the user turn (emits
nothing, never raises), the `status("thinking")` event, the reply-generation
call, the emotion mapping, the `emotion` event, the `response` event, one
`audio` event per synthesis chunk, and the final `audio(is_final=true)`
marker, then the best-effort persist of the assistant turn.  Every component
called catches its own exceptions, so the `except` branch that would emit an
`error` event is unreachable in this model (task cancellation aside). -/
def run_pipeline (key : String) (loads : String → Option JsonTop)
    (outcome : CompleteResult) (ttsKey voiceId : String)
    (primary secondary : TransportRun)
    (history : List Msg) (user_text : String) : List Event × List Msg :=
  let r := generate_response key loads outcome history user_text
  let llm_response := r.1
  let emotion_mapping := get_emotion_mapping (some llm_response.emotion) llm_response.intensity
  let chunks := synthesize_speech_streaming ttsKey voiceId primary secondary
  ([Event.status "thinking",
    Event.emotion emotion_mapping.simli_emotion_id llm_response.intensity,
    Event.response llm_response.text llm_response.emotion.value]
   ++ chunks.map Event.audioChunk
   ++ [Event.audioFinal], r.2)

/-! ### `backend/main.py` — per-session serialization (`_process_conversation`)

`_process_conversation` wraps `_run_pipeline` in `async with
self._conversation_lock`.  The model below is the single-threaded cooperative
scheduler of asyncio restricted to one session: a FIFO queue of submitted runs
(asyncio.Lock wakes waiters in FIFO order), at most one run holding the lock,
and one emitted event per scheduler step.  Distinct sessions are separate
`SessState` values stepped independently (each session owns its own lock and
history), composed below as a product. -/

structure SessState where
  lockHeld : Bool
  queue : List (List Event)
  running : Option (List Event)
  trace : List Event

/-- One scheduler step of a session: acquire the lock (only when free, in
submission order), emit the next event of the run holding the lock, or release
the lock when the run is done. -/
inductive SessStep : SessState → SessState → Prop
  | acquire (r : List Event) (rest : List (List Event)) (tr : List Event) :
      SessStep ⟨false, r :: rest, none, tr⟩ ⟨true, rest, some r, tr⟩
  | emit (e : Event) (rest : List Event) (q : List (List Event)) (tr : List Event) :
      SessStep ⟨true, q, some (e :: rest), tr⟩ ⟨true, q, some rest, tr ++ [e]⟩
  | release (q : List (List Event)) (tr : List Event) :
      SessStep ⟨true, q, some [], tr⟩ ⟨false, q, none, tr⟩

/-- Two independent sessions: either one may take a step at any time. -/
inductive PairStep : SessState × SessState → SessState × SessState → Prop
  | left {a a' b} : SessStep a a' → PairStep (a, b) (a', b)
  | right {a b b'} : SessStep b b' → PairStep (a, b) (a, b')

/-- The initial state of a session with two runs submitted back-to-back. -/
def initSess (r1 r2 : List Event) : SessState := ⟨false, [r1, r2], none, []⟩

/-! ## Theorems -/

/-- `round_to_valid_stability` only ever returns one of the three quantized values. -/
lemma round_to_valid_stability_mem (q : ℚ) :
    round_to_valid_stability q = 0 ∨ round_to_valid_stability q = 0.5 ∨
      round_to_valid_stability q = 1 := by
  unfold round_to_valid_stability
  split
  · left; norm_num
  · split
    · right; left; rfl
    · right; right; norm_num

/-- Every base style in the static emotion table is non-negative. -/
lemma emotionMapGet_style_nonneg (e : Option EmotionType) :
    0 ≤ (emotionMapGet e).voice_style := by
  rcases e with - | e
  · norm_num [emotionMapGet, EMOTION_MAP]
  · cases e <;> norm_num [emotionMapGet, EMOTION_MAP]

/-- The three derived fields of `get_emotion_mapping`, unfolded. -/
lemma gem_stability (e : Option EmotionType) (i : ℚ) :
    (get_emotion_mapping e i).voice_stability =
      round_to_valid_stability ((emotionMapGet e).voice_stability - i * 0.2) := rfl

lemma gem_style (e : Option EmotionType) (i : ℚ) :
    (get_emotion_mapping e i).voice_style =
      min 1.0 ((emotionMapGet e).voice_style + i * 0.2) := rfl

lemma gem_speed (e : Option EmotionType) (i : ℚ) :
    (get_emotion_mapping e i).voice_speed =
      max 0.7 (min 1.2 (pyRound2 (1.0 + ((emotionMapGet e).voice_speed - 1.0)
        * (0.5 + i * 0.5)))) := rfl

/-- C3: for every emotion of the eight-member enumeration — and for the
unrecognized-emotion lookup, which uses the neutral table entry — and every
intensity in [0,1], the mapped voice parameters satisfy: stability is one of
exactly {0.0, 0.5, 1.0}, style lies in [0,1], and speed lies in [0.7,1.2]. -/
theorem emotion_mapping_bounds (e : Option EmotionType) (i : ℚ)
    (h0 : 0 ≤ i) (h1 : i ≤ 1) :
    ((get_emotion_mapping e i).voice_stability = 0 ∨
     (get_emotion_mapping e i).voice_stability = 0.5 ∨
     (get_emotion_mapping e i).voice_stability = 1) ∧
    (0 ≤ (get_emotion_mapping e i).voice_style ∧ (get_emotion_mapping e i).voice_style ≤ 1) ∧
    (0.7 ≤ (get_emotion_mapping e i).voice_speed ∧ (get_emotion_mapping e i).voice_speed ≤ 1.2) := by
  rw [gem_stability, gem_style, gem_speed]
  refine ⟨round_to_valid_stability_mem _, ⟨?_, ?_⟩, ?_, ?_⟩
  · refine le_min ?_ (add_nonneg (emotionMapGet_style_nonneg e) (mul_nonneg h0 ?_)) <;>
      norm_num
  · exact le_trans (min_le_left _ _) (by norm_num)
  · exact le_max_left _ _
  · exact max_le (by norm_num) (le_trans (min_le_left _ _) (by norm_num))

/-- Witness for C3: the spec's own worked example, `empathetic` at intensity
0.7, satisfies the bounds (concretely: stability 0.5, style 0.54, speed 0.87). -/
theorem emotion_mapping_bounds_witness :
    0 ≤ (0.7 : ℚ) ∧ (0.7 : ℚ) ≤ 1 ∧
    (((get_emotion_mapping (some .empathetic) 0.7).voice_stability = 0 ∨
      (get_emotion_mapping (some .empathetic) 0.7).voice_stability = 0.5 ∨
      (get_emotion_mapping (some .empathetic) 0.7).voice_stability = 1) ∧
     (0 ≤ (get_emotion_mapping (some .empathetic) 0.7).voice_style ∧
      (get_emotion_mapping (some .empathetic) 0.7).voice_style ≤ 1) ∧
     (0.7 ≤ (get_emotion_mapping (some .empathetic) 0.7).voice_speed ∧
      (get_emotion_mapping (some .empathetic) 0.7).voice_speed ≤ 1.2)) :=
  ⟨by norm_num, by norm_num,
   emotion_mapping_bounds (some .empathetic) 0.7 (by norm_num) (by norm_num)⟩

/-- C7: feeding the accumulator `final("hello")`, `final("world")`, `boundary`
hands exactly one utterance `"hello world"` to the pipeline and clears the
pending buffer; a boundary arriving on an empty buffer (here a second
immediate boundary, and in general any `utterance_end` at empty buffer)
triggers no utterance and no pipeline run. -/
theorem accumulator_hello_world :
    run_stt_listener [.transcript "hello" true, .transcript "world" true,
      .utteranceEnd, .utteranceEnd] = ("", ["hello world"]) ∧
    ∀ outs : List String, accumStep ("", outs) .utteranceEnd = ("", outs) := by
  refine ⟨by decide, fun outs => ?_⟩
  simp [accumStep, show pyStrip "" = "" from rfl]

/-- The `except (json.JSONDecodeError, ValueError)` branch of
`_parse_response` fires: the decode failed outright, or it produced an
object whose field extraction failed with a `ValueError`-class error. -/
def caughtParseFailure (loads : String → Option JsonTop) (raw : String) : Prop :=
  loads (stripCodeFence (pyStrip raw)) = none ∨
  ∃ rec, loads (stripCodeFence (pyStrip raw)) = some (.jobj rec) ∧
    decodeEnvelope rec = .valueError

lemma parse_response_of_caught (loads : String → Option JsonTop) (raw : String)
    (h : caughtParseFailure loads raw) :
    parse_response loads raw = .ok (fallbackEnvelope raw) := by
  rcases h with h | ⟨rec, hl, hd⟩
  · unfold parse_response
    rw [h]
  · unfold parse_response
    rw [hl]
    show (match decodeEnvelope rec with
          | .ok resp => Except.ok resp
          | .valueError => Except.ok (fallbackEnvelope raw)
          | .typeError => Except.error UncaughtError.typeError)
        = Except.ok (fallbackEnvelope raw)
    rw [hd]

/-- C4 (amended): an upstream output whose structured parsing fails with an
error the `except (json.JSONDecodeError, ValueError)` clause catches — a JSON
decode failure, an unrecognized emotion, or a field validation failure —
yields the envelope whose text is the entire raw text with emotion neutral,
intensity 0.5 and no delivery hint, propagated unchanged by
`generate_response`.  But an output that escapes that clause — valid JSON
with a non-object top level (`AttributeError` from `data.get`) or a null
intensity (`TypeError` from `float(None)`) — is caught only by
`generate_response`'s generic `except Exception`, which returns the retry
envelope (neutral, intensity 0.3), not the raw-text fallback.  In both cases
the generate operation itself never raises. -/
theorem parse_failure_returns_raw_text (loads : String → Option JsonTop)
    (raw_text : String)
    (hfail : caughtParseFailure loads raw_text)
    (hfail2 : caughtParseFailure loads (pyStrip raw_text)) :
    parse_response loads raw_text =
      .ok { text := raw_text, emotion := .neutral, intensity := 0.5,
            voice_direction := "" } ∧
    (∀ key history u, llm_is_api_key_valid key = true →
      (generate_response key loads (.ok raw_text) history u).1 =
        { text := pyStrip raw_text, emotion := .neutral, intensity := 0.5,
          voice_direction := "" }) ∧
    (∀ (loads' : String → Option JsonTop) (raw' : String) (e : UncaughtError),
      parse_response loads' (pyStrip raw') = .error e →
      ∀ key history u, llm_is_api_key_valid key = true →
        (generate_response key loads' (.ok raw') history u).1 = genericErrorResponse) := by
  refine ⟨parse_response_of_caught loads raw_text hfail,
          fun key history u hkey => ?_,
          fun loads' raw' e herr key history u hkey => ?_⟩
  · unfold generate_response
    rw [hkey]
    simp only [Bool.not_true, Bool.false_eq_true, if_false]
    rw [parse_response_of_caught loads (pyStrip raw_text) hfail2]
    rfl
  · unfold generate_response
    rw [hkey]
    simp only [Bool.not_true, Bool.false_eq_true, if_false]
    rw [herr]

/-- Witness for C4 (amended): the non-JSON upstream text `"just talking"`
(with a decode failing on every input, as `json.loads` does on this text)
yields exactly the degraded envelope `{text := "just talking", neutral, 0.5}`. -/
theorem parse_failure_returns_raw_text_witness :
    parse_response (fun _ => none) "just talking" =
      .ok { text := "just talking", emotion := .neutral, intensity := 0.5,
            voice_direction := "" } ∧
    (generate_response "sk-abcdefghij" (fun _ => none) (.ok "just talking") [] "hi").1 =
      { text := pyStrip "just talking", emotion := .neutral, intensity := 0.5,
        voice_direction := "" } :=
  have h := parse_failure_returns_raw_text (fun _ => none) "just talking"
    (Or.inl rfl) (Or.inl rfl)
  ⟨h.1, h.2.1 "sk-abcdefghij" [] "hi" (by decide)⟩

/-- A decode standing for the upstream output `"[1,2]"`: valid JSON whose top
level is a list, not an object. -/
def loadsListTop : String → Option JsonTop := fun _ => some .nonObject

/-- C4 counterexample: the upstream output `"[1,2]"` fails structured parsing,
yet generate does NOT return the raw-output envelope with intensity 0.5:
`data.get` on the decoded list raises `AttributeError`, which
`_parse_response`'s `except (json.JSONDecodeError, ValueError)` does not
catch; `generate_response`'s generic `except Exception` returns the retry
envelope (text `"잠시 후 다시 시도해주세요."`, neutral, intensity 0.3) and
appends no assistant turn. -/
theorem parse_failure_not_fallback_counterexample :
    parse_response loadsListTop "[1,2]" = .error .attributeError ∧
    generate_response "sk-abcdefghij" loadsListTop (.ok "[1,2]") [] "hi"
      = (genericErrorResponse, [⟨.user, "hi"⟩]) ∧
    genericErrorResponse.text ≠ "[1,2]" ∧
    genericErrorResponse.intensity ≠ 0.5 :=
  ⟨rfl, rfl, by decide, by norm_num [genericErrorResponse]⟩

/-- A successfully extracted intensity passed pydantic's range validation. -/
lemma intensityField_bounds (rec : JsonRecord) (q : ℚ)
    (h : intensityField rec = .ok q) : 0 ≤ q ∧ q ≤ 1 := by
  unfold intensityField at h
  split at h
  · split at h
    · cases h
      assumption
    · exact absurd h (by simp)
  · exact absurd h (by simp)
  · exact absurd h (by simp)

/-- A successfully decoded envelope has its intensity within [0,1]. -/
lemma decodeEnvelope_intensity (rec : JsonRecord) (r : LLMResponse)
    (h : decodeEnvelope rec = .ok r) : 0 ≤ r.intensity ∧ r.intensity ≤ 1 := by
  unfold decodeEnvelope at h
  split at h
  · exact absurd h (by simp)
  · split at h
    · exact absurd h (by simp)
    · exact absurd h (by simp)
    · split at h
      · cases h
        exact intensityField_bounds rec _ (by assumption)
      · exact absurd h (by simp)

/-- An envelope returned (rather than an exception raised) by
`_parse_response` has intensity in [0,1]. -/
lemma parse_response_ok_intensity (loads : String → Option JsonTop) (raw : String)
    (resp : LLMResponse) (h : parse_response loads raw = .ok resp) :
    0 ≤ resp.intensity ∧ resp.intensity ≤ 1 := by
  unfold parse_response at h
  split at h
  · cases h
    constructor <;> norm_num [fallbackEnvelope]
  · exact absurd h (by simp)
  · split at h
    · cases h
      exact decodeEnvelope_intensity _ _ (by assumption)
    · cases h
      constructor <;> norm_num [fallbackEnvelope]
    · exact absurd h (by simp)

/-- A `ValueError`-class intensity failure makes the whole decode a caught
failure (an emotion failure, evaluated first, is also caught). -/
lemma decodeEnvelope_valueError_of_intensity (rec : JsonRecord)
    (h : intensityField rec = .valueError) : decodeEnvelope rec = .valueError := by
  rcases he : emotionField rec with - | e <;> simp [decodeEnvelope, he, h]

/-- An unrecognized emotion makes the whole decode a caught failure. -/
lemma decodeEnvelope_valueError_of_emotion (rec : JsonRecord)
    (h : emotionField rec = none) : decodeEnvelope rec = .valueError := by
  simp [decodeEnvelope, h]

/-- C5 (amended): every envelope the adapter produces has intensity in [0,1],
and the emotion field always holds a valid member of the enumeration — but an
upstream structured reply whose intensity lies outside [0,1] is NOT clamped:
it fails pydantic validation, and the adapter returns the fallback envelope
(whole raw text, emotion neutral, intensity 0.5).  An unrecognized emotion
string likewise produces the fallback envelope with emotion neutral. -/
theorem envelope_intensity_in_range :
    (∀ key loads outcome history u,
      0 ≤ (generate_response key loads outcome history u).1.intensity ∧
      (generate_response key loads outcome history u).1.intensity ≤ 1) ∧
    (∀ loads raw rec q, loads (stripCodeFence (pyStrip raw)) = some (.jobj rec) →
      getField rec "intensity" = some (.jnum q) → ¬(0 ≤ q ∧ q ≤ 1) →
      parse_response loads raw = .ok (fallbackEnvelope raw)) ∧
    (∀ loads raw rec s, loads (stripCodeFence (pyStrip raw)) = some (.jobj rec) →
      getField rec "emotion" = some (.jstr s) → emotionTypeOfString s = none →
      parse_response loads raw = .ok (fallbackEnvelope raw)) := by
  refine ⟨fun key loads outcome history u => ?_,
          fun loads raw rec q hl hf hq => ?_,
          fun loads raw rec s hl hf hs => ?_⟩
  · unfold generate_response
    split
    · constructor <;> norm_num [mockResponse]
    · cases outcome with
      | ok raw =>
        cases hp : parse_response loads (pyStrip raw) with
        | ok resp =>
          simp only [hp]
          exact parse_response_ok_intensity loads (pyStrip raw) resp hp
        | error e =>
          simp only [hp]
          constructor <;> norm_num [genericErrorResponse]
      | apiError => constructor <;> norm_num [apiErrorResponse]
      | otherError => constructor <;> norm_num [genericErrorResponse]
  · have hint : intensityField rec = .valueError := by
      unfold intensityField
      rw [hf, Option.getD_some]
      show (if 0 ≤ q ∧ q ≤ 1 then IntensityResult.ok q else .valueError) = .valueError
      exact if_neg hq
    have hd := decodeEnvelope_valueError_of_intensity rec hint
    unfold parse_response
    rw [hl]
    show (match decodeEnvelope rec with
          | .ok resp => Except.ok resp
          | .valueError => Except.ok (fallbackEnvelope raw)
          | .typeError => Except.error UncaughtError.typeError)
        = Except.ok (fallbackEnvelope raw)
    rw [hd]
  · have hemo : emotionField rec = none := by
      unfold emotionField
      rw [hf, Option.getD_some]
      exact hs
    have hd := decodeEnvelope_valueError_of_emotion rec hemo
    unfold parse_response
    rw [hl]
    show (match decodeEnvelope rec with
          | .ok resp => Except.ok resp
          | .valueError => Except.ok (fallbackEnvelope raw)
          | .typeError => Except.error UncaughtError.typeError)
        = Except.ok (fallbackEnvelope raw)
    rw [hd]

/-- A decode standing for the upstream structured reply
`"intensity": 1.5` (the other fields absent, taking their defaults). -/
def loadsIntensityOutOfRange : String → Option JsonTop :=
  fun _ => some (.jobj [("intensity", JVal.jnum 1.5)])

/-- C5 counterexample: a structured reply with intensity 1.5 is NOT clamped
into [0,1] (clamping would give 1); the adapter instead falls back to the
degraded envelope with intensity 0.5. -/
theorem intensity_not_clamped_counterexample :
    parse_response loadsIntensityOutOfRange "RAW" = .ok (fallbackEnvelope "RAW") ∧
    (fallbackEnvelope "RAW").intensity = 0.5 ∧
    (fallbackEnvelope "RAW").intensity ≠ min 1 (max 0 (1.5 : ℚ)) := by
  have hint : intensityField [("intensity", JVal.jnum 1.5)] = .valueError := by
    norm_num [intensityField, getField, List.find?]
  have hd := decodeEnvelope_valueError_of_intensity _ hint
  refine ⟨?_, by norm_num [fallbackEnvelope], by norm_num [fallbackEnvelope]⟩
  unfold parse_response
  show (match decodeEnvelope [("intensity", JVal.jnum 1.5)] with
        | .ok resp => Except.ok resp
        | .valueError => Except.ok (fallbackEnvelope "RAW")
        | .typeError => Except.error UncaughtError.typeError)
      = Except.ok (fallbackEnvelope "RAW")
  rw [hd]

/-- Witness for C5 (amended): the out-of-range branch at the concrete decode
above — the adapter returns the fallback envelope, not a clamped one. -/
theorem envelope_intensity_in_range_witness :
    parse_response loadsIntensityOutOfRange "RAW" = .ok (fallbackEnvelope "RAW") :=
  envelope_intensity_in_range.2.1 loadsIntensityOutOfRange "RAW"
    [("intensity", JVal.jnum 1.5)] 1.5 rfl (by simp [getField, List.find?]) (by norm_num)

/-- A sequence of `generate_response` calls on one adapter: feed each user
text in order, threading the conversation history, and record the context
passed to the reply-generation capability at each call (no context is
recorded for a call that never invokes the capability, i.e. mock mode). -/
def feed_turns (key : String) (loads : String → Option JsonTop)
    (outcome : CompleteResult) :
    List Msg → List String → List Msg × List (List Msg)
  | history, [] => (history, [])
  | history, u :: rest =>
    let step := generate_response key loads outcome history u
    let r := feed_turns key loads outcome step.2 rest
    (r.1, (if llm_is_api_key_valid key then [passedContext history u] else []) ++ r.2)

/-- C6: the history passed to the reply-generation capability always holds at
most the 20 most recent turns, oldest dropped first (it is the suffix of the
appended history obtained by dropping the `length + 1 - 20` oldest entries);
concretely, over 21 user turns (upstream failing, so no assistant turns), the
context of the 21st call is exactly the 20 most recent turns and the first
turn `"a"` is absent. -/
theorem history_truncation :
    (∀ history u,
      (passedContext history u).length = min (history.length + 1) 20 ∧
      passedContext history u =
        (history ++ [(⟨.user, u⟩ : Msg)]).drop (history.length + 1 - 20)) ∧
    (feed_turns "sk-abcdefghij" (fun _ => none) .apiError []
        ["a","b","c","d","e","f","g","h","i","j","k","l","m","n","o","p","q","r","s","t","u"]).2.getLast?
      = some (["b","c","d","e","f","g","h","i","j","k","l","m","n","o","p","q","r","s","t","u"].map
          (fun s => ⟨.user, s⟩)) ∧
    (⟨.user, "a"⟩ : Msg) ∉
      ((feed_turns "sk-abcdefghij" (fun _ => none) .apiError []
        ["a","b","c","d","e","f","g","h","i","j","k","l","m","n","o","p","q","r","s","t","u"]).2.getLast?.getD []) := by
  refine ⟨fun history u => ?_, by decide, by decide⟩
  unfold passedContext max_history_length
  have hlen : (history ++ [(⟨.user, u⟩ : Msg)]).length = history.length + 1 := by simp
  split
  next hgt =>
    rw [hlen] at hgt
    constructor
    · rw [List.length_drop, hlen]
      omega
    · rw [hlen]
  next hle =>
    rw [hlen] at hle
    constructor
    · rw [hlen]
      omega
    · have h0 : history.length + 1 - 20 = 0 := by omega
      rw [h0, List.drop_zero]

/-- C8: when the reply-generation capability itself fails with a transport /
availability error (`anthropic.APIError`), `generate_response` does not raise:
it returns exactly the fixed apology envelope with emotion neutral and
intensity 0.3 (the user turn stays recorded, no assistant turn is appended),
and the pipeline run still completes its full event sequence — the
conversation continues rather than the session terminating. -/
theorem api_error_returns_apology (key : String) (loads : String → Option JsonTop)
    (history : List Msg) (u : String) (hkey : llm_is_api_key_valid key = true) :
    generate_response key loads .apiError history u =
      (apiErrorResponse, passedContext history u) ∧
    apiErrorResponse.emotion = .neutral ∧ apiErrorResponse.intensity = 0.3 ∧
    ∀ ttsKey voiceId primary secondary,
      (run_pipeline key loads .apiError ttsKey voiceId primary secondary history u).1.getLast?
        = some .audioFinal := by
  refine ⟨?_, rfl, rfl, ?_⟩
  · unfold generate_response
    rw [hkey]
    rfl
  · intro ttsKey voiceId primary secondary
    unfold run_pipeline
    rw [List.getLast?_concat]

/-- Witness for C8: a syntactically valid credential, empty history, the
user text `"hi"`. -/
theorem api_error_returns_apology_witness :
    generate_response "sk-abcdefghij" (fun _ => none) .apiError [] "hi" =
      (apiErrorResponse, passedContext [] "hi") ∧
    apiErrorResponse.emotion = .neutral ∧ apiErrorResponse.intensity = 0.3 ∧
    ∀ ttsKey voiceId primary secondary,
      (run_pipeline "sk-abcdefghij" (fun _ => none) .apiError ttsKey voiceId primary
        secondary [] "hi").1.getLast? = some .audioFinal :=
  api_error_returns_apology "sk-abcdefghij" (fun _ => none) [] "hi" (by decide)

/-- C10: with an absent or placeholder credential, `generate_response`
returns the labeled mock placeholder envelope without invoking the capability
(the result is the same for every capability outcome and decode) and without
modifying the conversation history — the returned history is exactly the
input history, with neither a user turn nor an assistant turn appended. -/
theorem mock_mode_preserves_history (key : String) (loads : String → Option JsonTop)
    (outcome : CompleteResult) (history : List Msg) (u : String)
    (hkey : llm_is_api_key_valid key = false) :
    generate_response key loads outcome history u = (mockResponse u, history) ∧
    pyStartsWith (mockResponse u).text "(Mock)" = true := by
  constructor
  · unfold generate_response
    rw [hkey]
    rfl
  · rfl

/-- Witness for C10: the placeholder credential `"your_api_key_here"`, with a
non-trivial history that must come back unchanged, under both a capability
success and a capability error (showing the capability is never consulted). -/
theorem mock_mode_preserves_history_witness :
    (generate_response "your_api_key_here" (fun _ => none) (.ok "ignored")
        [⟨.user, "old"⟩] "hello" = (mockResponse "hello", [⟨.user, "old"⟩]) ∧
      pyStartsWith (mockResponse "hello").text "(Mock)" = true) ∧
    (generate_response "your_api_key_here" (fun _ => none) .apiError
        [⟨.user, "old"⟩] "hello" = (mockResponse "hello", [⟨.user, "old"⟩]) ∧
      pyStartsWith (mockResponse "hello").text "(Mock)" = true) :=
  ⟨mock_mode_preserves_history "your_api_key_here" (fun _ => none) (.ok "ignored")
      [⟨.user, "old"⟩] "hello" (by decide),
   mock_mode_preserves_history "your_api_key_here" (fun _ => none) .apiError
      [⟨.user, "old"⟩] "hello" (by decide)⟩

/-- Recognizer for the end-of-audio marker event. -/
def Event.isAudioFinal : Event → Bool
  | .audioFinal => true
  | _ => false

lemma filter_audioChunk_isAudioFinal (cs : List String) :
    (cs.map Event.audioChunk).filter Event.isAudioFinal = [] := by
  induction cs with
  | nil => rfl
  | cons c cs ih => simp [Event.isAudioFinal, ih]

/-- C1: every pipeline run emits, in this exact order: one
`status("thinking")` event, one emotion event, one response event, zero or
more audio data chunks, and exactly one final end-of-audio marker — for every
configuration (mock mode, capability errors, parse fallback and both
synthesis-transport outcomes included), so the emotion event never follows
the response or audio events and the final marker is emitted exactly once
even when zero chunks were produced. -/
theorem pipeline_event_order (key : String) (loads : String → Option JsonTop)
    (outcome : CompleteResult) (ttsKey voiceId : String)
    (primary secondary : TransportRun) (history : List Msg) (u : String) :
    ∃ (emotionId : String) (intensity : ℚ) (text emotionValue : String)
      (chunks : List String),
      (run_pipeline key loads outcome ttsKey voiceId primary secondary history u).1
        = Event.status "thinking" :: Event.emotion emotionId intensity ::
            Event.response text emotionValue ::
            (chunks.map Event.audioChunk ++ [Event.audioFinal]) ∧
      ((run_pipeline key loads outcome ttsKey voiceId primary secondary history u).1.filter
          Event.isAudioFinal).length = 1 ∧
      (run_pipeline key loads outcome ttsKey voiceId primary secondary history u).1.getLast?
        = some Event.audioFinal := by
  refine ⟨_, _, _, _, synthesize_speech_streaming ttsKey voiceId primary secondary,
    rfl, ?_, ?_⟩
  · unfold run_pipeline
    simp [List.filter_append, filter_audioChunk_isAudioFinal, Event.isAudioFinal]
  · unfold run_pipeline
    rw [List.getLast?_concat]

/-- C9 counterexample: the secondary (HTTP) transport is also tried when the
primary (WebSocket) transport fails AFTER having produced a chunk — the code
has no "zero chunks so far" guard — so "only when the primary fails before
producing any audio chunk" is false: here the primary yielded `"c0"` and the
secondary still runs (its chunk `"c1"` is forwarded after `"c0"`). -/
theorem secondary_tried_after_chunks_counterexample :
    secondaryTried "sk-abcdefghij" "voice" ⟨["c0"], true⟩ = true ∧
    (⟨["c0"], true⟩ : TransportRun).chunks ≠ [] ∧
    synthesize_speech_streaming "sk-abcdefghij" "voice" ⟨["c0"], true⟩ ⟨["c1"], false⟩
      = ["c0", "c1"] :=
  ⟨by decide, by decide, by decide⟩

/-- C9 (amended): the secondary synthesis transport is tried at most once per
run, and exactly when the primary transport raises — whether or not the
primary already produced chunks (its chunks are forwarded once, appended
after the primary's); it is never tried when the primary completes normally.
When both transports fail having produced zero chunks, the pipeline still
emits the end-of-audio marker with zero data chunks and the run completes
with the response event already sent (the marker is the last event, directly
after the response). -/
theorem synthesis_fallback_once :
    (∀ key voiceId chunks secondary,
      secondaryTried key voiceId ⟨chunks, false⟩ = false ∧
      synthesize_speech_streaming key voiceId ⟨chunks, false⟩ secondary
        = (if tts_is_api_key_valid key = true ∧ voiceId ≠ "" then chunks else [])) ∧
    (∀ key voiceId primary secondary,
      tts_is_api_key_valid key = true → voiceId ≠ "" → primary.failed = true →
      secondaryTried key voiceId primary = true ∧
      synthesize_speech_streaming key voiceId primary secondary
        = primary.chunks ++ secondary.chunks) ∧
    (∀ key loads outcome history u ttsKey voiceId,
      ∃ (emotionId : String) (intensity : ℚ) (text emotionValue : String),
        (run_pipeline key loads outcome ttsKey voiceId ⟨[], true⟩ ⟨[], true⟩ history u).1
          = [Event.status "thinking", Event.emotion emotionId intensity,
             Event.response text emotionValue, Event.audioFinal]) := by
  refine ⟨fun key voiceId chunks secondary => ⟨?_, ?_⟩,
          fun key voiceId primary secondary hkey hvid hfail => ⟨?_, ?_⟩,
          fun key loads outcome history u ttsKey voiceId => ?_⟩
  · simp [secondaryTried]
  · by_cases hk : tts_is_api_key_valid key = true
    · by_cases hv : voiceId = ""
      · simp [synthesize_speech_streaming, hk, hv]
      · simp [synthesize_speech_streaming, hk, hv]
    · simp [synthesize_speech_streaming, Bool.not_eq_true _ ▸ hk, hk]
  · simp [secondaryTried, hkey, hvid, hfail]
  · simp [synthesize_speech_streaming, hkey, hvid, hfail]
  · have hsyn : synthesize_speech_streaming ttsKey voiceId ⟨[], true⟩ ⟨[], true⟩ = [] := by
      unfold synthesize_speech_streaming
      split
      · rfl
      · split
        · rfl
        · rfl
    refine ⟨(get_emotion_mapping (some (generate_response key loads outcome history u).1.emotion)
        (generate_response key loads outcome history u).1.intensity).simli_emotion_id,
      (generate_response key loads outcome history u).1.intensity,
      (generate_response key loads outcome history u).1.text,
      ((generate_response key loads outcome history u).1.emotion).value, ?_⟩
    unfold run_pipeline
    rw [hsyn]
    rfl

/-- Witness for C9 (amended): with a usable key and voice id, a primary run
that raises after one chunk triggers the secondary exactly once, chunks
concatenated in order. -/
theorem synthesis_fallback_once_witness :
    secondaryTried "sk-abcdefghij" "voice" ⟨["c0"], true⟩ = true ∧
    synthesize_speech_streaming "sk-abcdefghij" "voice" ⟨["c0"], true⟩ ⟨["c1"], false⟩
      = (⟨["c0"], true⟩ : TransportRun).chunks ++ (⟨["c1"], false⟩ : TransportRun).chunks :=
  synthesis_fallback_once.2.1 "sk-abcdefghij" "voice" ⟨["c0"], true⟩ ⟨["c1"], false⟩
    (by decide) (by decide) rfl

/-- All events a session will ever emit, in order: trace so far, then the
remainder of the run holding the lock, then the queued runs in FIFO order. -/
def sessTotal (s : SessState) : List Event :=
  s.trace ++ s.running.getD [] ++ s.queue.flatten

lemma sessStep_total {s s' : SessState} (h : SessStep s s') :
    sessTotal s' = sessTotal s := by
  cases h <;> simp [sessTotal]

lemma sessReach_total {s s' : SessState}
    (h : Relation.ReflTransGen SessStep s s') : sessTotal s' = sessTotal s := by
  induction h with
  | refl => rfl
  | tail _ hstep ih => rw [sessStep_total hstep, ih]

/-- An interleaved execution of two sessions projects to an execution of each
session alone: a step of one session never touches the other's state. -/
lemma pairReach_proj {x y : SessState × SessState}
    (h : Relation.ReflTransGen PairStep x y) :
    Relation.ReflTransGen SessStep x.1 y.1 ∧ Relation.ReflTransGen SessStep x.2 y.2 := by
  induction h with
  | refl => exact ⟨.refl, .refl⟩
  | tail _ hstep ih =>
    cases hstep with
    | left hs => exact ⟨ih.1.tail hs, ih.2⟩
    | right hs => exact ⟨ih.1, ih.2.tail hs⟩

/-- C2: per-session mutual exclusion and cross-session independence.  Two
pipeline runs submitted back-to-back on one session (`initSess r1 r2`: both
waiting on the session's lock in submission order) produce, in any complete
interleaved execution with a second session, the non-interleaved trace
`r1 ++ r2` — the second run blocks until the first completes — while the
second session independently produces its own `s1 ++ s2`. -/
theorem session_mutual_exclusion (r1 r2 s1 s2 : List Event) (a b : SessState)
    (h : Relation.ReflTransGen PairStep (initSess r1 r2, initSess s1 s2) (a, b))
    (haq : a.queue = []) (har : a.running = none)
    (hbq : b.queue = []) (hbr : b.running = none) :
    a.trace = r1 ++ r2 ∧ b.trace = s1 ++ s2 := by
  obtain ⟨h1, h2⟩ := pairReach_proj h
  have t1 := sessReach_total h1
  have t2 := sessReach_total h2
  simp [sessTotal, haq, har, initSess] at t1
  simp [sessTotal, hbq, hbr, initSess] at t2
  exact ⟨t1, t2⟩

/-- Witness for C2: a concrete complete execution — session one runs a
one-event pipeline then an empty one, session two two empty ones — reaching
the terminal states; the final traces are the concatenations in submission
order. -/
theorem session_mutual_exclusion_witness :
    (⟨false, [], none, [Event.audioFinal]⟩ : SessState).trace
      = [Event.audioFinal] ++ [] ∧
    (⟨false, [], none, []⟩ : SessState).trace = [] ++ [] :=
  session_mutual_exclusion [Event.audioFinal] [] [] []
    ⟨false, [], none, [Event.audioFinal]⟩ ⟨false, [], none, []⟩
    (by
      apply Relation.ReflTransGen.head
        (PairStep.left (SessStep.acquire [Event.audioFinal] [[]] []))
      apply Relation.ReflTransGen.head
        (PairStep.left (SessStep.emit Event.audioFinal [] [[]] []))
      apply Relation.ReflTransGen.head
        (PairStep.left (SessStep.release [[]] [Event.audioFinal]))
      apply Relation.ReflTransGen.head
        (PairStep.left (SessStep.acquire [] [] [Event.audioFinal]))
      apply Relation.ReflTransGen.head
        (PairStep.left (SessStep.release [] [Event.audioFinal]))
      apply Relation.ReflTransGen.head
        (PairStep.right (SessStep.acquire [] [[]] []))
      apply Relation.ReflTransGen.head
        (PairStep.right (SessStep.release [[]] []))
      apply Relation.ReflTransGen.head
        (PairStep.right (SessStep.acquire [] [] []))
      apply Relation.ReflTransGen.head
        (PairStep.right (SessStep.release [] []))
      exact Relation.ReflTransGen.refl)
    rfl rfl rfl rfl

end AiHuman
